import Mathlib

/-
  Verification of the traderbot pairs-trading core against its specification.

  The development shallowly embeds the two core components of the repository:

  * `KalmanOLS` (src/trade/models.py): a recursive Kalman-filter-style online
    linear estimator over 2-dimensional state, embedded with exact rational
    arithmetic (ℚ stands in for IEEE floats; float literals such as 1e-4 are
    read as the exact decimals they denote).

  * `Pairs` (src/trade/strategies.py and src/trade/pairs.py — two variants of
    the position state machine), embedded as pure tick functions.  External
    collaborators are modelled as parameters: the price feed supplies the two
    mid-prices, the trade executor is an oracle (a Boolean saying whether the
    single possible executor call of a tick succeeds; on failure the Python
    code raises, which we model by aborting the tick), and `np.sqrt(q)` is
    abstracted by a parameter `sq` (square roots of rationals are generally
    irrational; every decision in the code depends on `q` only through
    comparisons against `np.sqrt(q)`, so theorems quantifying over all `sq`
    subsume the real runs, and concrete scenarios carry side conditions that
    pin the branch taken to the one real arithmetic would take).

  Persistence (src/trade/defaults.py `Stateful.save_state`/`load_state`) is
  embedded at the JSON-value level: `json.dump`/`json.load` round-trip the
  value types used here (ints, floats, strings, nested lists, null) exactly,
  so the store holds the structured snapshot itself.
-/

namespace Traderbot

/-- A 2×2 matrix of rationals, row major: entries `a b / c d`.
    Embeds the `np.ndarray` matrices of src/trade/models.py. -/
structure Mat2 where
  a : ℚ
  b : ℚ
  c : ℚ
  d : ℚ
  deriving DecidableEq, Repr

/-- A 2-vector of rationals; used both for the 2×1 column `theta` and for the
    1×2 observation row `F = [y1, 1]` of src/trade/models.py. -/
structure Vec2 where
  x : ℚ
  y : ℚ
  deriving DecidableEq, Repr

def Mat2.add (A B : Mat2) : Mat2 := ⟨A.a + B.a, A.b + B.b, A.c + B.c, A.d + B.d⟩

def Mat2.sub (A B : Mat2) : Mat2 := ⟨A.a - B.a, A.b - B.b, A.c - B.c, A.d - B.d⟩

def Mat2.mul (A B : Mat2) : Mat2 :=
  ⟨A.a * B.a + A.b * B.c, A.a * B.b + A.b * B.d,
   A.c * B.a + A.d * B.c, A.c * B.b + A.d * B.d⟩

def Vec2.add (u v : Vec2) : Vec2 := ⟨u.x + v.x, u.y + v.y⟩

def Vec2.smul (v : Vec2) (t : ℚ) : Vec2 := ⟨v.x * t, v.y * t⟩

def Vec2.sdiv (v : Vec2) (t : ℚ) : Vec2 := ⟨v.x / t, v.y / t⟩

/-- Product `(1×2)·(2×1)`: `F.dot(theta)` in src/trade/models.py. -/
def rowDot (f v : Vec2) : ℚ := f.x * v.x + f.y * v.y

/-- Product `(1×2)·(2×2)`: `F.dot(R)` in src/trade/models.py. -/
def rowMul (f : Vec2) (M : Mat2) : Vec2 :=
  ⟨f.x * M.a + f.y * M.c, f.x * M.b + f.y * M.d⟩

/-- Product `(2×2)·(2×1)`: `R.dot(F.T)` in src/trade/models.py. -/
def mulCol (M : Mat2) (f : Vec2) : Vec2 :=
  ⟨M.a * f.x + M.b * f.y, M.c * f.x + M.d * f.y⟩

/-- Product `(2×1)·(1×2)`: `At.dot(F)` in src/trade/models.py. -/
def outer (u f : Vec2) : Mat2 :=
  ⟨u.x * f.x, u.x * f.y, u.y * f.x, u.y * f.y⟩

/-- The mutable state of `KalmanOLS` (src/trade/models.py): scalars `delta`
    and `nu`, the constant process noise `w`, the 2×1 state `theta`, the
    a-priori covariance `R`, and the a-posteriori covariance `C`, which is
    `None` before the first observation (here `Option.none`). -/
structure KalmanState where
  delta : ℚ
  nu : ℚ
  w : Mat2
  theta : Vec2
  R : Mat2
  C : Option Mat2
  deriving DecidableEq, Repr

/-- What one call of `KalmanOLS.__call__` yields: the returned triple
    `(et, Qt, theta[0,0])` together with the post-call object state. -/
structure KalmanOut where
  et : ℚ
  Qt : ℚ
  hedge : ℚ
  next : KalmanState
  deriving DecidableEq, Repr

namespace KalmanOLS

/-- Embedding of `KalmanOLS.__call__(y1, y2)` (src/trade/models.py):
    `F = [[y1, 1]]`; `R = R if C is None else C + w`; `yp = F·theta`;
    `et = y2 - yp`; `Qt = F·R·Fᵀ + nu`; `At = R·Fᵀ / Qt`;
    `theta += At·et`; `C = R - At·F·R`; returns `(et, Qt, theta[0,0])`. -/
def call (s : KalmanState) (y1 y2 : ℚ) : KalmanOut :=
  let F : Vec2 := ⟨y1, 1⟩
  let R : Mat2 := match s.C with
    | none => s.R
    | some C => C.add s.w
  let yp : ℚ := rowDot F s.theta
  let et : ℚ := y2 - yp
  let Qt : ℚ := rowDot (rowMul F R) F + s.nu
  let At : Vec2 := (mulCol R F).sdiv Qt
  let theta : Vec2 := s.theta.add (At.smul et)
  let C : Mat2 := R.sub ((outer At F).mul R)
  ⟨et, Qt, theta.x, { s with theta := theta, R := R, C := some C }⟩

end KalmanOLS

/-- The forecast covariance the call will use: `C + w` when `C` is defined,
    otherwise the stored `R` (first tick). -/
def effR (s : KalmanState) : Mat2 :=
  match s.C with
  | none => s.R
  | some C => C.add s.w

/-- The innovation variance `Q = F·R·Fᵀ + nu` a call `update(y1, _)` computes. -/
def Qval (s : KalmanState) (y1 : ℚ) : ℚ :=
  y1 * y1 * (effR s).a + y1 * (effR s).b + y1 * (effR s).c + (effR s).d + s.nu

namespace HedgeSpec

/-- Modelled from the spec: steps 1–9 of §4.1 `RecursiveHedgeEstimator.update`,
    written directly as the spec lists them — forecast covariance `R = C + w`
    when `C` is defined (else the initialized `R` is kept); `F = [y1, 1]`;
    `yp = F·theta`; `error = y2 - yp`; `Q = F·R·Fᵗ + nu`; gain
    `K = R·Fᵗ / Q`; `theta := theta + K·error`; `C := R - K·F·R`; return
    `(error, Q, theta[0])` and the new state. -/
def updateSpec (s : KalmanState) (y1 y2 : ℚ) : KalmanOut :=
  let R : Mat2 := match s.C with
    | none => s.R
    | some C0 => ⟨C0.a + s.w.a, C0.b + s.w.b, C0.c + s.w.c, C0.d + s.w.d⟩
  let error : ℚ := y2 - (y1 * s.theta.x + s.theta.y)
  let Q : ℚ := (y1 * R.a + R.c) * y1 + (y1 * R.b + R.d) + s.nu
  let Kx : ℚ := (R.a * y1 + R.b) / Q
  let Ky : ℚ := (R.c * y1 + R.d) / Q
  let thx : ℚ := s.theta.x + Kx * error
  let thy : ℚ := s.theta.y + Ky * error
  let Cnew : Mat2 :=
    ⟨R.a - (Kx * y1 * R.a + Kx * R.c), R.b - (Kx * y1 * R.b + Kx * R.d),
     R.c - (Ky * y1 * R.a + Ky * R.c), R.d - (Ky * y1 * R.b + Ky * R.d)⟩
  ⟨error, Q, thx,
   { s with theta := ⟨thx, thy⟩, R := R, C := some Cnew }⟩

/-- The error type the spec's §7 taxonomy prescribes for a degenerate or
    non-positive forecast variance. -/
inductive NumericError where
  | nonPositiveVariance
  deriving DecidableEq, Repr

/-- Modelled from the spec: §4.1 "Q must be strictly positive; if `Q <= 0`
    ... the call fails with a NumericError rather than dividing by zero or
    returning a meaningless gain."  The guarded update the spec describes;
    the repository's code has no such guard, which claim C2 is about. -/
def updateChecked (s : KalmanState) (y1 y2 : ℚ) :
    Except NumericError KalmanOut :=
  if Qval s y1 ≤ 0 then .error .nonPositiveVariance
  else .ok (updateSpec s y1 y2)

end HedgeSpec

/-- The implementation's update coincides with the spec's step list on every
    state and input (shared helper for the claims about the estimator). -/
theorem update_impl_eq_spec (s : KalmanState) (y1 y2 : ℚ) :
    KalmanOLS.call s y1 y2 = HedgeSpec.updateSpec s y1 y2 := by
  cases s with
  | mk delta nu w theta R C =>
    cases C with
    | none =>
      simp only [KalmanOLS.call, HedgeSpec.updateSpec, rowDot, rowMul, mulCol,
        outer, Mat2.add, Mat2.sub, Mat2.mul, Vec2.add, Vec2.smul, Vec2.sdiv,
        KalmanOut.mk.injEq, KalmanState.mk.injEq, Vec2.mk.injEq, Mat2.mk.injEq,
        Option.some.injEq]
      and_intros <;> first | rfl | ring
    | some C0 =>
      simp only [KalmanOLS.call, HedgeSpec.updateSpec, rowDot, rowMul, mulCol,
        outer, Mat2.add, Mat2.sub, Mat2.mul, Vec2.add, Vec2.smul, Vec2.sdiv,
        KalmanOut.mk.injEq, KalmanState.mk.injEq, Vec2.mk.injEq, Mat2.mk.injEq,
        Option.some.injEq]
      and_intros <;> first | rfl | ring

/-- C1: every call `update(y1, y2)` performs exactly the recursive filter
    steps in order — `R := C + w` (or the initialized `R` kept when `C` is
    undefined), `F = [y1, 1]`, `yp = F·theta`, `error = y2 - yp`,
    `Q = F·R·Fᵗ + nu`, `K = R·Fᵗ / Q`, `theta := theta + K·error`,
    `C := R - K·F·R` — and returns `(error, Q, theta[0])` where `theta[0]`
    is the updated hedge ratio and `theta[1]` is not returned.  Stated as
    equality between the code embedding and the step list modelled from the
    spec. -/
theorem C1_update_follows_spec_steps (s : KalmanState) (y1 y2 : ℚ) :
    KalmanOLS.call s y1 y2 = HedgeSpec.updateSpec s y1 y2 :=
  update_impl_eq_spec s y1 y2

/-- A state a run can load (src/trade/defaults.py `load_state` accepts any
    persisted snapshot) whose innovation variance at `y1 = 1` is `-1`. -/
def degenState : KalmanState :=
  ⟨1/10000, 0, ⟨0, 0, 0, 0⟩, ⟨0, 0⟩, ⟨0, 0, 0, 0⟩, some ⟨-1, 0, 0, 0⟩⟩

/-- C2 counterexample: at a concrete state with `Q = -1 ≤ 0`, the spec's
    guarded update fails with a NumericError, but the code's update does not
    fail: it divides by the non-positive `Q` and returns a concrete
    (meaningless) result.  There is no NumericError path anywhere in
    src/trade/models.py. -/
theorem C2_counterexample :
    Qval degenState 1 ≤ 0 ∧
    HedgeSpec.updateChecked degenState 1 1 =
      Except.error .nonPositiveVariance ∧
    KalmanOLS.call degenState 1 1 =
      ⟨1, -1, 1, ⟨1/10000, 0, ⟨0, 0, 0, 0⟩, ⟨1, 0⟩, ⟨-1, 0, 0, 0⟩,
        some ⟨0, 0, 0, 0⟩⟩⟩ := by
  have h : Qval degenState 1 ≤ 0 := by norm_num [Qval, effR, degenState, Mat2.add]
  refine ⟨h, ?_, ?_⟩
  · rw [HedgeSpec.updateChecked, if_pos h]
  · simp only [KalmanOLS.call, degenState, rowDot, rowMul, mulCol, outer,
      Mat2.add, Mat2.sub, Mat2.mul, Vec2.add, Vec2.smul, Vec2.sdiv,
      KalmanOut.mk.injEq, KalmanState.mk.injEq, Vec2.mk.injEq, Mat2.mk.injEq,
      Option.some.injEq]
    norm_num

/-- C2 amended: `update` performs no positivity check on `Q` — the gain is
    formed by dividing by `Q` unconditionally and no NumericError path
    exists; the code coincides with the spec's guarded update exactly on
    calls with `Q > 0`, and on `Q ≤ 0` it returns a value instead of
    failing (see the counterexample). -/
theorem C2_update_unguarded (s : KalmanState) (y1 y2 : ℚ)
    (hQ : 0 < Qval s y1) :
    HedgeSpec.updateChecked s y1 y2 = Except.ok (KalmanOLS.call s y1 y2) := by
  rw [HedgeSpec.updateChecked, if_neg (not_le.mpr hQ), update_impl_eq_spec]

/-- A healthy first-tick state: fresh defaults with `R` the identity/100. -/
def freshState : KalmanState :=
  ⟨1/10000, 1/1000, ⟨1/9999, 0, 0, 1/9999⟩, ⟨0, 0⟩, ⟨1/100, 0, 0, 1/100⟩, none⟩

/-- C2 witness: a concrete call with `Q > 0` on which the unguarded code
    agrees with the guarded spec update. -/
theorem C2_update_unguarded_witness :
    0 < Qval freshState 1 ∧
    HedgeSpec.updateChecked freshState 1 2 =
      Except.ok (KalmanOLS.call freshState 1 2) :=
  ⟨by norm_num [Qval, effR, freshState],
   C2_update_unguarded freshState 1 2
     (by norm_num [Qval, effR, freshState])⟩

/-! ## Persistence layer

`Stateful` (src/trade/defaults.py) persists `get_state()` with `json.dump`
and reads it back with `json.load`; for the value types used here (ints,
floats, strings, nested lists, null) that encoding is exact, so the store
is modelled as holding the structured snapshot itself. -/

/-- A JSON value as written by `json.dump` / read by `json.load`. -/
inductive JVal where
  | jint : Int → JVal
  | jnum : ℚ → JVal
  | jstr : String → JVal
  | jarr : List JVal → JVal
  | jnull : JVal

/-- Serialization of a 2×2 `np.ndarray` by `KalmanOLS._serialize`: `x.tolist()`. -/
def mat2ToJson (M : Mat2) : JVal :=
  .jarr [.jarr [.jnum M.a, .jnum M.b], .jarr [.jnum M.c, .jnum M.d]]

/-- Serialization of the 2×1 `theta` by `KalmanOLS._serialize`: `x.tolist()`. -/
def vec2ColToJson (v : Vec2) : JVal :=
  .jarr [.jarr [.jnum v.x], .jarr [.jnum v.y]]

/-- Serialization of `C`: `None` is not an `ndarray`, so it is
    stored unchanged and `json.dump` writes `null`. -/
def cToJson : Option Mat2 → JVal
  | none => .jnull
  | some M => mat2ToJson M

/-- Lookup `state[key]` on the loaded snapshot (`json.load` yields a dict). -/
def lookupField : List (String × JVal) → String → Option JVal
  | [], _ => none
  | (k, v) :: rest, key => if k = key then some v else lookupField rest key

/-- Deserialization (`KalmanOLS._deserialize`) reconstructing a 2×2 matrix from its persisted
    nested-list representation (`np.asarray` with shape recovery); anything
    that is not an exactly 2×2 numeric nested list is rejected. -/
def parseMat2 : JVal → Option Mat2
  | .jarr [.jarr [.jnum a, .jnum b], .jarr [.jnum c, .jnum d]] =>
      some ⟨a, b, c, d⟩
  | _ => none

/-- Deserialization (`KalmanOLS._deserialize`) reconstructing the 2×1 `theta`. -/
def parseVec2Col : JVal → Option Vec2
  | .jarr [.jarr [.jnum x], .jarr [.jnum y]] => some ⟨x, y⟩
  | _ => none

/-- Deserialization of the persisted `C`: `null` is not a list, so
    it comes back unchanged as `None` (undefined), never as a zero matrix. -/
def parseC : JVal → Option (Option Mat2)
  | .jnull => some none
  | v => (parseMat2 v).map some

/-- A float-valued field. -/
def parseNum : JVal → Option ℚ
  | .jnum q => some q
  | _ => none

/-- An integer-valued field. -/
def parseInt : JVal → Option Int
  | .jint n => some n
  | _ => none

namespace KalmanOLS

/-- Embedding of `KalmanOLS.get_state` (src/trade/models.py): the persisted estimator
    snapshot `{delta, nu, w, theta, R, C}` with matrices via `tolist` and
    `C` possibly `null`. -/
def get_state (s : KalmanState) : List (String × JVal) :=
  [("delta", .jnum s.delta), ("nu", .jnum s.nu), ("w", mat2ToJson s.w),
   ("theta", vec2ColToJson s.theta), ("R", mat2ToJson s.R),
   ("C", cToJson s.C)]

/-- The loading branch of `KalmanOLS.__init__`: read each field of the
    snapshot and `_deserialize` the matrix-valued ones. -/
def load (st : List (String × JVal)) : Option KalmanState := do
  let delta ← (lookupField st "delta").bind parseNum
  let nu ← (lookupField st "nu").bind parseNum
  let w ← (lookupField st "w").bind parseMat2
  let theta ← (lookupField st "theta").bind parseVec2Col
  let R ← (lookupField st "R").bind parseMat2
  let C ← (lookupField st "C").bind parseC
  pure ⟨delta, nu, w, theta, R, C⟩

end KalmanOLS

/-! ## The position state machine

Two variants exist in the repository: src/trade/strategies.py (threshold
multiplier 2, persists volumes) and src/trade/pairs.py (threshold
multiplier 1, persists only counter and position).  Both are embedded. -/

/-- Embedding of `Position` (both variant files): a string-backed three-state enum. -/
inductive Position where
  | LONG
  | SHORT
  | NOT_INVESTED
  deriving DecidableEq, Repr

/-- The string value a `Position` persists as (str-backed enum). -/
def Position.toStr : Position → String
  | .LONG => "LONG"
  | .SHORT => "SHORT"
  | .NOT_INVESTED => "NOT_INVESTED"

/-- Recover a `Position` from its persisted string (Python keeps the raw
    string, which compares equal to the enum member by value). -/
def Position.ofStr (s : String) : Option Position :=
  if s = "LONG" then some .LONG
  else if s = "SHORT" then some .SHORT
  else if s = "NOT_INVESTED" then some .NOT_INVESTED
  else none

/-- Python `round(x, 8)`: round to 8 decimal places, ties to even. -/
def roundHalfEven (x : ℚ) : Int :=
  let f : Int := ⌊x⌋
  let r : ℚ := x - f
  if r < 1/2 then f
  else if 1/2 < r then f + 1
  else if f % 2 = 0 then f else f + 1

/-- Scaled rounding `round(x, 8)` as used for the leg volumes. -/
def pyRound8 (x : ℚ) : ℚ := (roundHalfEven (x * 100000000) : ℚ) / 100000000

/-- Python float modulo `x % y = x - y*floor(x/y)` (src/trade/pairs.py uses
    `counter % (save_time / sleep_time)`). -/
def pyFmod (x y : ℚ) : ℚ := x - y * ⌊x / y⌋

/-- One call to the `PairsTrader` collaborator (src/trade/traders.py),
    recorded with the arguments the strategy passes. -/
inductive ExecCall where
  | go_long (counter : Int) (volume_a volume_b price_a price_b fos : ℚ)
  | go_short (counter : Int) (volume_a volume_b price_a price_b fos : ℚ)
  | close_long (counter : Int) (price_a price_b fos : ℚ)
  | close_short (counter : Int) (price_a price_b fos : ℚ)
  deriving DecidableEq, Repr

namespace Strategies

/-- The state of `Pairs` in src/trade/strategies.py: the persisted fields
    `counter`, `position`, `volume_a`, `volume_b`, the configuration
    `bake_count` and `fos`, and the composed estimator. -/
structure PairsState where
  counter : Int
  position : Position
  volume_a : ℚ
  volume_b : ℚ
  bake_count : Int
  fos : ℚ
  model : KalmanState

/-- Embedding of `Pairs.get_state` (src/trade/strategies.py): exactly the four fields
    `counter`, `invested`, `volume_a`, `volume_b`. -/
def get_state (s : PairsState) : List (String × JVal) :=
  [("counter", .jint s.counter), ("invested", .jstr s.position.toStr),
   ("volume_a", .jnum s.volume_a), ("volume_b", .jnum s.volume_b)]

/-- The loading branch of `Pairs.__init__` (src/trade/strategies.py):
    `counter`, `invested`, `volume_a`, `volume_b` come from the snapshot;
    `bake_count`, `fos` and the estimator come from construction. -/
def load (st : List (String × JVal)) (bake_count : Int) (fos : ℚ)
    (model : KalmanState) : Option PairsState := do
  let counter ← (lookupField st "counter").bind parseInt
  let investedJ ← lookupField st "invested"
  let invested ← match investedJ with
    | .jstr p => Position.ofStr p
    | _ => none
  let volume_a ← (lookupField st "volume_a").bind parseNum
  let volume_b ← (lookupField st "volume_b").bind parseNum
  pure ⟨counter, invested, volume_a, volume_b, bake_count, fos, model⟩

/-- What one `Pairs.__call__` tick does: whether it completed without an
    exception, the in-memory state when control returns (or the exception
    escapes), the snapshot written by the final `save_state()` (none when
    the tick aborted before reaching it), and the trade-executor calls made. -/
structure TickResult where
  ok : Bool
  state : PairsState
  saved : Option (List (String × JVal))
  calls : List ExecCall

/-- Embedding of `Pairs.__call__` (src/trade/strategies.py).  Inputs: the two mid-prices
    from the price feed, `sq` standing for `np.sqrt(q)` of this tick, and
    `execOk` saying whether the (at most one) trade-executor call succeeds;
    on failure the Python call raises, the position assignment and the final
    `save_state()` are skipped, and the exception escapes the tick.  The
    decision uses threshold multiplier 2, and on entry
    `volume_a = round(volume_b * t, 8)` is assigned before the executor is
    invoked. -/
def tick (s : PairsState) (price_a price_b sq : ℚ) (execOk : Bool) :
    TickResult :=
  let counter := s.counter + 1
  let out := KalmanOLS.call s.model price_a price_b
  let e := out.et
  let t := out.hedge
  if counter > s.bake_count then
    let step : Position × ℚ × List ExecCall :=
      match s.position with
      | .NOT_INVESTED =>
        if e < -(2 * sq) then
          (.LONG, pyRound8 (s.volume_b * t),
           [.go_long counter (pyRound8 (s.volume_b * t)) s.volume_b
              price_a price_b s.fos])
        else if e > 2 * sq then
          (.SHORT, pyRound8 (s.volume_b * t),
           [.go_short counter (pyRound8 (s.volume_b * t)) s.volume_b
              price_a price_b s.fos])
        else (.NOT_INVESTED, s.volume_a, [])
      | .LONG =>
        if e > -(2 * sq) then
          (.NOT_INVESTED, s.volume_a,
           [.close_long counter price_a price_b s.fos])
        else (.LONG, s.volume_a, [])
      | .SHORT =>
        if e < 2 * sq then
          (.NOT_INVESTED, s.volume_a,
           [.close_short counter price_a price_b s.fos])
        else (.SHORT, s.volume_a, [])
    if step.2.2 = [] ∨ execOk then
      let s' : PairsState := { s with counter := counter, position := step.1, volume_a := step.2.1, model := out.next }
      ⟨true, s', some (get_state s'), step.2.2⟩
    else
      let s' : PairsState := { s with counter := counter, volume_a := step.2.1, model := out.next }
      ⟨false, s', none, step.2.2⟩
  else
    let s' : PairsState := { s with counter := counter, model := out.next }
    ⟨true, s', some (get_state s'), []⟩

end Strategies

namespace PairsPy

/-- The state of `Pairs` in src/trade/pairs.py: persisted fields `counter`
    and `position`; configuration `volume_b`, `bake_count`, `th`,
    `sleep_time`, `save_time`; and the composed estimator. -/
structure PairsState where
  counter : Int
  position : Position
  volume_b : ℚ
  bake_count : Int
  th : ℚ
  sleep_time : ℚ
  save_time : ℚ
  model : KalmanState

/-- Embedding of `Pairs.get_state` (src/trade/pairs.py): only `counter` and `invested`. -/
def get_state (s : PairsState) : List (String × JVal) :=
  [("counter", .jint s.counter), ("invested", .jstr s.position.toStr)]

/-- What one src/trade/pairs.py `Pairs.__call__` tick does; this variant
    also saves the estimator snapshot (always during warm-up, and after the
    decision when the position changed or the save cadence elapsed) and
    returns a sleep time. -/
structure TickResult where
  ok : Bool
  state : PairsState
  savedStrategy : Option (List (String × JVal))
  savedModel : Option (List (String × JVal))
  calls : List ExecCall
  sleep : ℚ

/-- Embedding of `Pairs.__call__` (src/trade/pairs.py).  Threshold multiplier 1,
    `volume_a` is a local (never stored), the estimator snapshot is saved
    when the position changed or `counter % (save_time / sleep_time) == 0`
    (always in warm-up, where the tick also returns a 4-hour sleep), and on
    executor failure the exception escapes before any `save_state()`. -/
def tick (s : PairsState) (price_a price_b sq : ℚ) (execOk : Bool) :
    TickResult :=
  let counter := s.counter + 1
  let out := KalmanOLS.call s.model price_a price_b
  let e := out.et
  let t := out.hedge
  if counter > s.bake_count then
    let step : Position × List ExecCall :=
      match s.position with
      | .NOT_INVESTED =>
        if e < -sq then
          (.LONG, [.go_long counter (pyRound8 (s.volume_b * t)) s.volume_b
                     price_a price_b s.th])
        else if e > sq then
          (.SHORT, [.go_short counter (pyRound8 (s.volume_b * t)) s.volume_b
                      price_a price_b s.th])
        else (.NOT_INVESTED, [])
      | .LONG =>
        if e > -sq then
          (.NOT_INVESTED, [.close_long counter price_a price_b s.th])
        else (.LONG, [])
      | .SHORT =>
        if e < sq then
          (.NOT_INVESTED, [.close_short counter price_a price_b s.th])
        else (.SHORT, [])
    if step.2 = [] ∨ execOk then
      let s' : PairsState := { s with counter := counter, position := step.1, model := out.next }
      let savedM : Option (List (String × JVal)) :=
        if s.position ≠ step.1 ∨
            pyFmod (counter : ℚ) (s.save_time / s.sleep_time) = 0 then
          some (KalmanOLS.get_state out.next)
        else none
      ⟨true, s', some (get_state s'), savedM, step.2, s.sleep_time⟩
    else
      let s' : PairsState := { s with counter := counter, model := out.next }
      ⟨false, s', none, none, step.2, s.sleep_time⟩
  else
    let s' : PairsState := { s with counter := counter, model := out.next }
    ⟨true, s', some (get_state s'), some (KalmanOLS.get_state out.next), [],
     4 * 60 * 60⟩

end PairsPy

/-- The content of the strategy state file after a tick: `save_state`
    overwrites it with the new snapshot; a tick that aborted before
    `save_state()` leaves the previous content in place. -/
def storeAfter (prev : Option (List (String × JVal)))
    (saved : Option (List (String × JVal))) :
    Option (List (String × JVal)) :=
  match saved with
  | none => prev
  | some st => some st

/-- C8: persisting any valid estimator or strategy state and loading it back
    yields a value-equal state; an absent `C` (stored as `null`) deserializes
    back to undefined, not to a zero matrix, and the matrices come back with
    their exact shapes (the parsers only accept the 2×2 / 2×1 nested lists
    `tolist` produced). -/
theorem C8_save_load_round_trip :
    (∀ s : KalmanState, KalmanOLS.load (KalmanOLS.get_state s) = some s) ∧
    (∀ p : Strategies.PairsState,
      Strategies.load (Strategies.get_state p) p.bake_count p.fos p.model =
        some p) := by
  constructor
  · intro s
    cases s with
    | mk delta nu w theta R C =>
      cases C <;>
        simp [KalmanOLS.load, KalmanOLS.get_state, lookupField, parseNum,
          parseMat2, parseVec2Col, parseC, mat2ToJson, vec2ColToJson, cToJson,
          Option.bind]
  · intro p
    cases p with
    | mk counter position va vb bc fos model =>
      cases position <;>
        simp [Strategies.load, Strategies.get_state, lookupField, parseInt,
          parseNum, Position.toStr, Position.ofStr, Option.bind]

/-- C9 counterexample: the src/trade/pairs.py variant persists a strategy
    snapshot holding only `counter` and `invested` — at a concrete state the
    snapshot it saves has no `volume_a` (or `volume_b`) field, refuting the
    claim that every persisted strategy snapshot carries all four fields. -/
theorem C9_counterexample :
    (PairsPy.get_state ⟨5, .LONG, 1, 2, 1/100, 30, 46800, freshState⟩).map
        Prod.fst = ["counter", "invested"] ∧
    "volume_a" ∉
      (PairsPy.get_state ⟨5, .LONG, 1, 2, 1/100, 30, 46800, freshState⟩).map
        Prod.fst := by
  simp [PairsPy.get_state]

/-- C9 amended: snapshots persisted by the src/trade/strategies.py variant
    contain exactly `counter` (an integer), `invested` (one of "LONG",
    "SHORT", "NOT_INVESTED"), `volume_a` and `volume_b` (floats); the
    src/trade/pairs.py variant persists only `counter` and `invested`. -/
theorem C9_snapshot_fields :
    (∀ s : Strategies.PairsState,
      (Strategies.get_state s).map Prod.fst =
        ["counter", "invested", "volume_a", "volume_b"] ∧
      lookupField (Strategies.get_state s) "counter" =
        some (.jint s.counter) ∧
      lookupField (Strategies.get_state s) "invested" =
        some (.jstr s.position.toStr) ∧
      (s.position.toStr = "LONG" ∨ s.position.toStr = "SHORT" ∨
        s.position.toStr = "NOT_INVESTED") ∧
      lookupField (Strategies.get_state s) "volume_a" =
        some (.jnum s.volume_a) ∧
      lookupField (Strategies.get_state s) "volume_b" =
        some (.jnum s.volume_b)) ∧
    (∀ s : PairsPy.PairsState,
      (PairsPy.get_state s).map Prod.fst = ["counter", "invested"]) := by
  constructor
  · intro s
    obtain ⟨c, pos, va, vb, bc, fos, model⟩ := s
    cases pos <;>
      simp [Strategies.get_state, lookupField, Position.toStr]
  · intro s
    simp [PairsPy.get_state]

/-- C6: in a warm-up tick (post-increment `counter <= bake_count`), no
    trade-executor call is made — whatever the estimator output and whether
    the executor would succeed — while the estimator state is still advanced
    by the tick.  Proved for both variant files. -/
theorem C6_warm_up_no_executor_call (sA : Strategies.PairsState)
    (sB : PairsPy.PairsState) (pa pb sq pa2 pb2 sq2 : ℚ) (ok ok2 : Bool)
    (h1 : sA.counter + 1 ≤ sA.bake_count)
    (h2 : sB.counter + 1 ≤ sB.bake_count) :
    (Strategies.tick sA pa pb sq ok).calls = [] ∧
    (Strategies.tick sA pa pb sq ok).state.model =
      (KalmanOLS.call sA.model pa pb).next ∧
    (PairsPy.tick sB pa2 pb2 sq2 ok2).calls = [] ∧
    (PairsPy.tick sB pa2 pb2 sq2 ok2).state.model =
      (KalmanOLS.call sB.model pa2 pb2).next := by
  simp only [Strategies.tick, PairsPy.tick]
  rw [if_neg (by omega : ¬ sA.counter + 1 > sA.bake_count),
    if_neg (by omega : ¬ sB.counter + 1 > sB.bake_count)]
  exact ⟨rfl, rfl, rfl, rfl⟩

/-- C6 witness: a concrete warm-up tick (counter 0, bake_count 2) in each
    variant performs no executor call and still updates the estimator. -/
theorem C6_warm_up_no_executor_call_witness :
    (0 : Int) + 1 ≤ 2 ∧
    (Strategies.tick ⟨0, .NOT_INVESTED, 1, 1, 2, 1/100, freshState⟩
        100 100 0 true).calls = [] ∧
    (Strategies.tick ⟨0, .NOT_INVESTED, 1, 1, 2, 1/100, freshState⟩
        100 100 0 true).state.model = (KalmanOLS.call freshState 100 100).next ∧
    (PairsPy.tick ⟨0, .NOT_INVESTED, 1, 2, 1/100, 30, 46800, freshState⟩
        100 100 0 true).calls = [] ∧
    (PairsPy.tick ⟨0, .NOT_INVESTED, 1, 2, 1/100, 30, 46800, freshState⟩
        100 100 0 true).state.model =
      (KalmanOLS.call freshState 100 100).next := by
  refine ⟨by omega, ?_⟩
  exact C6_warm_up_no_executor_call
    ⟨0, .NOT_INVESTED, 1, 1, 2, 1/100, freshState⟩
    ⟨0, .NOT_INVESTED, 1, 2, 1/100, 30, 46800, freshState⟩
    100 100 0 100 100 0 true true (by decide) (by decide)

/-- C7: a single tick never moves the position directly between LONG and
    SHORT: if the position changes at all, one endpoint is NOT_INVESTED.
    Proved for both variant files, for every state, every input and both
    executor outcomes. -/
theorem C7_no_direct_long_short_flip (sA : Strategies.PairsState)
    (sB : PairsPy.PairsState) (pa pb sq pa2 pb2 sq2 : ℚ) (ok ok2 : Bool) :
    ((Strategies.tick sA pa pb sq ok).state.position = sA.position ∨
      sA.position = .NOT_INVESTED ∨
      (Strategies.tick sA pa pb sq ok).state.position = .NOT_INVESTED) ∧
    ((PairsPy.tick sB pa2 pb2 sq2 ok2).state.position = sB.position ∨
      sB.position = .NOT_INVESTED ∨
      (PairsPy.tick sB pa2 pb2 sq2 ok2).state.position = .NOT_INVESTED) := by
  constructor
  · obtain ⟨c, pos, va, vb, bc, fos, model⟩ := sA
    cases pos <;> simp only [Strategies.tick] <;>
      split_ifs <;> simp
  · obtain ⟨c, pos, vb, bc, th, st, vt, model⟩ := sB
    cases pos <;> simp only [PairsPy.tick] <;>
      split_ifs <;> simp

/-- A loaded estimator state whose first update has `theta = 0`, so the
    prediction is `0` and the error equals the second price. -/
def model0 : KalmanState :=
  ⟨1/10000, 1/1000, ⟨0, 0, 0, 0⟩, ⟨0, 0⟩, ⟨0, 0, 0, 0⟩, none⟩

/-- A strategies.py state one tick past warm-up, flat, with unit volumes. -/
def stratW : Strategies.PairsState := ⟨0, .NOT_INVESTED, 1, 1, 0, 1/100, model0⟩

/-- Shared helper: in the strategies.py variant, a tick whose attempted
    executor call fails aborts after the estimator update: not ok, position
    unchanged, counter incremented in memory, nothing saved. -/
theorem strategies_tick_exec_fail (s : Strategies.PairsState) (pa pb sq : ℚ)
    (h : (Strategies.tick s pa pb sq false).calls ≠ []) :
    (Strategies.tick s pa pb sq false).ok = false ∧
    (Strategies.tick s pa pb sq false).state.position = s.position ∧
    (Strategies.tick s pa pb sq false).state.counter = s.counter + 1 ∧
    (Strategies.tick s pa pb sq false).saved = none := by
  obtain ⟨c, pos, va, vb, bc, fos, model⟩ := s
  cases pos <;> simp only [Strategies.tick] at h ⊢ <;>
    split_ifs at h ⊢ <;> simp_all

/-- Shared helper: the same failure behaviour in the pairs.py variant,
    which additionally saves no estimator snapshot. -/
theorem pairspy_tick_exec_fail (s : PairsPy.PairsState) (pa pb sq : ℚ)
    (h : (PairsPy.tick s pa pb sq false).calls ≠ []) :
    (PairsPy.tick s pa pb sq false).ok = false ∧
    (PairsPy.tick s pa pb sq false).state.position = s.position ∧
    (PairsPy.tick s pa pb sq false).state.counter = s.counter + 1 ∧
    (PairsPy.tick s pa pb sq false).savedStrategy = none ∧
    (PairsPy.tick s pa pb sq false).savedModel = none := by
  obtain ⟨c, pos, vb, bc, th, st, vt, model⟩ := s
  cases pos <;> simp only [PairsPy.tick] at h ⊢ <;>
    split_ifs at h ⊢ <;> simp_all

/-- C4: on any tick whose trade-executor call fails (the call was attempted
    and the executor raised), the tick fails as a whole: the in-memory
    position is the pre-tick position, nothing is saved, so the persisted
    strategy state — whatever it was — is unchanged, and the failure is
    surfaced (the tick does not complete).  Proved for both variant files. -/
theorem C4_exec_failure_preserves_position (sA : Strategies.PairsState)
    (sB : PairsPy.PairsState) (pa pb sq pa2 pb2 sq2 : ℚ)
    (hA : (Strategies.tick sA pa pb sq false).calls ≠ [])
    (hB : (PairsPy.tick sB pa2 pb2 sq2 false).calls ≠ []) :
    (Strategies.tick sA pa pb sq false).ok = false ∧
    (Strategies.tick sA pa pb sq false).state.position = sA.position ∧
    (∀ prev, storeAfter prev (Strategies.tick sA pa pb sq false).saved =
      prev) ∧
    (PairsPy.tick sB pa2 pb2 sq2 false).ok = false ∧
    (PairsPy.tick sB pa2 pb2 sq2 false).state.position = sB.position ∧
    (∀ prev,
      storeAfter prev (PairsPy.tick sB pa2 pb2 sq2 false).savedStrategy =
        prev) := by
  obtain ⟨o1, p1, _, s1⟩ := strategies_tick_exec_fail sA pa pb sq hA
  obtain ⟨o2, p2, _, s2, _⟩ := pairspy_tick_exec_fail sB pa2 pb2 sq2 hB
  refine ⟨o1, p1, ?_, o2, p2, ?_⟩ <;> intro prev <;>
    simp [storeAfter, s1, s2]

/-- C4 witness: a concrete tick in each variant on which an entry is
    attempted, the executor fails, and position and store are preserved. -/
theorem C4_exec_failure_preserves_position_witness :
    (Strategies.tick stratW 1 1 0 false).calls ≠ [] ∧
    (PairsPy.tick ⟨0, .NOT_INVESTED, 1, 0, 1/100, 30, 46800, model0⟩
        1 1 0 false).calls ≠ [] ∧
    (Strategies.tick stratW 1 1 0 false).ok = false ∧
    (Strategies.tick stratW 1 1 0 false).state.position = .NOT_INVESTED := by
  have hA : (Strategies.tick stratW 1 1 0 false).calls ≠ [] := by
    norm_num [Strategies.tick, stratW, model0, KalmanOLS.call, rowDot, rowMul,
      mulCol, outer, Vec2.add, Vec2.smul, Vec2.sdiv, Mat2.add, Mat2.sub,
      Mat2.mul]
  have hB : (PairsPy.tick ⟨0, .NOT_INVESTED, 1, 0, 1/100, 30, 46800, model0⟩
      1 1 0 false).calls ≠ [] := by
    norm_num [PairsPy.tick, model0, KalmanOLS.call, rowDot, rowMul,
      mulCol, outer, Vec2.add, Vec2.smul, Vec2.sdiv, Mat2.add, Mat2.sub,
      Mat2.mul]
  have h := C4_exec_failure_preserves_position stratW
    ⟨0, .NOT_INVESTED, 1, 0, 1/100, 30, 46800, model0⟩ 1 1 0 1 1 0 hA hB
  exact ⟨hA, hB, h.1, h.2.1.trans rfl⟩

/-- A strategies.py state like `stratW` but mid-run, with counter 5. -/
def strat5 : Strategies.PairsState := ⟨5, .NOT_INVESTED, 1, 1, 0, 1/100, model0⟩

/-- C5 counterexample: a concrete tick whose entry attempt fails.  The
    outcome does signal failure, the position stays NOT_INVESTED and the
    in-memory counter is incremented to 6 — but the incremented counter is
    NOT persisted: the tick aborts before `save_state()`, so the strategy
    store still holds the pre-tick snapshot with counter 5.  This refutes
    the claim that the incremented counter is persisted. -/
theorem C5_counterexample :
    (Strategies.tick strat5 1 1 0 false).calls ≠ [] ∧
    (Strategies.tick strat5 1 1 0 false).ok = false ∧
    (Strategies.tick strat5 1 1 0 false).state.position = .NOT_INVESTED ∧
    (Strategies.tick strat5 1 1 0 false).state.counter = 6 ∧
    storeAfter (some (Strategies.get_state strat5))
        (Strategies.tick strat5 1 1 0 false).saved =
      some (Strategies.get_state strat5) ∧
    lookupField (Strategies.get_state strat5) "counter" = some (.jint 5) := by
  have hcalls : (Strategies.tick strat5 1 1 0 false).calls ≠ [] := by
    norm_num [Strategies.tick, strat5, model0, KalmanOLS.call, rowDot, rowMul,
      mulCol, outer, Vec2.add, Vec2.smul, Vec2.sdiv, Mat2.add, Mat2.sub,
      Mat2.mul]
  refine ⟨hcalls, ?_, ?_, ?_, ?_, ?_⟩ <;>
    norm_num [Strategies.tick, Strategies.get_state, strat5, model0,
      KalmanOLS.call, rowDot, rowMul, mulCol, outer, Vec2.add, Vec2.smul,
      Vec2.sdiv, Mat2.add, Mat2.sub, Mat2.mul, storeAfter, lookupField]

/-- C5 amended: when an entry attempt fails with an ExecutionError, the
    tick's outcome signals failure, the position stays NOT_INVESTED and the
    in-memory counter is still incremented — but nothing is persisted by the
    failing tick (the exception skips `save_state()`), so the strategy state
    store keeps the pre-tick counter rather than the incremented one. -/
theorem C5_entry_failure_counter_not_persisted (s : Strategies.PairsState)
    (pa pb sq : ℚ) (hpos : s.position = .NOT_INVESTED)
    (h : (Strategies.tick s pa pb sq false).calls ≠ []) :
    (Strategies.tick s pa pb sq false).ok = false ∧
    (Strategies.tick s pa pb sq false).state.position = .NOT_INVESTED ∧
    (Strategies.tick s pa pb sq false).state.counter = s.counter + 1 ∧
    (Strategies.tick s pa pb sq false).saved = none := by
  have h2 := strategies_tick_exec_fail s pa pb sq h
  exact ⟨h2.1, hpos ▸ h2.2.1, h2.2.2.1, h2.2.2.2⟩

/-- C5 witness for the amended claim: the concrete failing-entry tick. -/
theorem C5_entry_failure_counter_not_persisted_witness :
    strat5.position = .NOT_INVESTED ∧
    (Strategies.tick strat5 1 1 0 false).calls ≠ [] ∧
    (Strategies.tick strat5 1 1 0 false).ok = false ∧
    (Strategies.tick strat5 1 1 0 false).state.counter = 5 + 1 := by
  have hcalls : (Strategies.tick strat5 1 1 0 false).calls ≠ [] := by
    norm_num [Strategies.tick, strat5, model0, KalmanOLS.call, rowDot, rowMul,
      mulCol, outer, Vec2.add, Vec2.smul, Vec2.sdiv, Mat2.add, Mat2.sub,
      Mat2.mul]
  have h := C5_entry_failure_counter_not_persisted strat5 1 1 0 rfl hcalls
  exact ⟨rfl, hcalls, h.1, h.2.2.1⟩

/-- C3: past warm-up and with the executor succeeding, the decision policy
    is exactly the claimed threshold test on `e` against `k·sqrt(Q)` (`sq`
    stands for `sqrt(Q)`, which is nonnegative): the strategies.py variant
    uses `k = 2`, the pairs.py variant `k = 1`; from NOT_INVESTED the tick
    opens LONG iff `e < -k·sq`, opens SHORT iff `e > k·sq`, else stays; from
    LONG it closes iff `e > -k·sq`; from SHORT it closes iff `e < k·sq`;
    and at most one executor call (entry or exit) happens per tick. -/
theorem C3_threshold_decision_policy (sA : Strategies.PairsState)
    (sB : PairsPy.PairsState) (pa pb sq pa2 pb2 sq2 : ℚ)
    (hsq : 0 ≤ sq) (hsq2 : 0 ≤ sq2)
    (hcA : sA.counter + 1 > sA.bake_count)
    (hcB : sB.counter + 1 > sB.bake_count) :
    ((sA.position = .NOT_INVESTED →
       (((Strategies.tick sA pa pb sq true).state.position = .LONG ↔
           (KalmanOLS.call sA.model pa pb).et < -(2 * sq)) ∧
        ((Strategies.tick sA pa pb sq true).state.position = .SHORT ↔
           (KalmanOLS.call sA.model pa pb).et > 2 * sq) ∧
        ((Strategies.tick sA pa pb sq true).state.position = .NOT_INVESTED ↔
           (¬ (KalmanOLS.call sA.model pa pb).et < -(2 * sq) ∧
            ¬ (KalmanOLS.call sA.model pa pb).et > 2 * sq)))) ∧
     (sA.position = .LONG →
       (((Strategies.tick sA pa pb sq true).state.position = .NOT_INVESTED ↔
           (KalmanOLS.call sA.model pa pb).et > -(2 * sq)) ∧
        ((Strategies.tick sA pa pb sq true).state.position = .LONG ↔
           ¬ (KalmanOLS.call sA.model pa pb).et > -(2 * sq)))) ∧
     (sA.position = .SHORT →
       (((Strategies.tick sA pa pb sq true).state.position = .NOT_INVESTED ↔
           (KalmanOLS.call sA.model pa pb).et < 2 * sq) ∧
        ((Strategies.tick sA pa pb sq true).state.position = .SHORT ↔
           ¬ (KalmanOLS.call sA.model pa pb).et < 2 * sq))) ∧
     (Strategies.tick sA pa pb sq true).calls.length ≤ 1) ∧
    ((sB.position = .NOT_INVESTED →
       (((PairsPy.tick sB pa2 pb2 sq2 true).state.position = .LONG ↔
           (KalmanOLS.call sB.model pa2 pb2).et < -sq2) ∧
        ((PairsPy.tick sB pa2 pb2 sq2 true).state.position = .SHORT ↔
           (KalmanOLS.call sB.model pa2 pb2).et > sq2) ∧
        ((PairsPy.tick sB pa2 pb2 sq2 true).state.position = .NOT_INVESTED ↔
           (¬ (KalmanOLS.call sB.model pa2 pb2).et < -sq2 ∧
            ¬ (KalmanOLS.call sB.model pa2 pb2).et > sq2)))) ∧
     (sB.position = .LONG →
       (((PairsPy.tick sB pa2 pb2 sq2 true).state.position = .NOT_INVESTED ↔
           (KalmanOLS.call sB.model pa2 pb2).et > -sq2) ∧
        ((PairsPy.tick sB pa2 pb2 sq2 true).state.position = .LONG ↔
           ¬ (KalmanOLS.call sB.model pa2 pb2).et > -sq2))) ∧
     (sB.position = .SHORT →
       (((PairsPy.tick sB pa2 pb2 sq2 true).state.position = .NOT_INVESTED ↔
           (KalmanOLS.call sB.model pa2 pb2).et < sq2) ∧
        ((PairsPy.tick sB pa2 pb2 sq2 true).state.position = .SHORT ↔
           ¬ (KalmanOLS.call sB.model pa2 pb2).et < sq2))) ∧
     (PairsPy.tick sB pa2 pb2 sq2 true).calls.length ≤ 1) := by
  constructor
  · obtain ⟨c, pos, va, vb, bc, fos, model⟩ := sA
    simp only at hcA
    cases pos <;> simp only [Strategies.tick, if_pos hcA] <;>
      split_ifs <;> simp_all <;>
      first
      | linarith
      | (constructor <;> intro h <;> linarith)
  · obtain ⟨c, pos, vb, bc, th, st, vt, model⟩ := sB
    simp only at hcB
    cases pos <;> simp only [PairsPy.tick, if_pos hcB] <;>
      split_ifs <;> simp_all <;>
      first
      | linarith
      | (constructor <;> intro h <;> linarith)

/-- A pairs.py state one tick past warm-up, flat. -/
def pairsPyW : PairsPy.PairsState :=
  ⟨0, .NOT_INVESTED, 1, 0, 1/100, 30, 46800, model0⟩

/-- C3 witness: a concrete flat tick past warm-up in both variants; the
    SHORT-entry characterization is instantiated. -/
theorem C3_threshold_decision_policy_witness :
    (0 : ℚ) ≤ 0 ∧ stratW.counter + 1 > stratW.bake_count ∧
    pairsPyW.counter + 1 > pairsPyW.bake_count ∧
    ((Strategies.tick stratW 1 1 0 true).state.position = .SHORT ↔
      (KalmanOLS.call stratW.model 1 1).et > 2 * 0) ∧
    ((PairsPy.tick pairsPyW 1 1 0 true).state.position = .SHORT ↔
      (KalmanOLS.call pairsPyW.model 1 1).et > 0) := by
  have h := C3_threshold_decision_policy stratW pairsPyW 1 1 0 1 1 0
    le_rfl le_rfl (by decide) (by decide)
  exact ⟨le_rfl, by decide, by decide, (h.1.1 rfl).2.1, (h.2.1 rfl).2.1⟩

/-- Rounding a nonpositive rational half-to-even yields a nonpositive
    integer. -/
theorem roundHalfEven_nonpos {y : ℚ} (h : y ≤ 0) : roundHalfEven y ≤ 0 := by
  have hf : ⌊y⌋ ≤ 0 := by
    have h0 : ⌊y⌋ ≤ ⌊(0 : ℚ)⌋ := Int.floor_le_floor h
    simpa using h0
  simp only [roundHalfEven]
  split_ifs with h1 h2 h3
  · exact hf
  · by_contra hc
    push_neg at hc
    have hf0 : ⌊y⌋ = 0 := by omega
    have hq : ((⌊y⌋ : Int) : ℚ) = 0 := by exact_mod_cast hf0
    rw [hq] at h2
    linarith
  · exact hf
  · omega

/-- Python `round(x, 8)` of a nonpositive value is nonpositive. -/
theorem pyRound8_nonpos {x : ℚ} (h : x ≤ 0) : pyRound8 x ≤ 0 := by
  have h8 : x * 100000000 ≤ 0 := by nlinarith
  have hr : ((roundHalfEven (x * 100000000) : Int) : ℚ) ≤ 0 := by
    exact_mod_cast roundHalfEven_nonpos h8
  simp only [pyRound8]
  rw [div_nonpos_iff]
  right
  exact ⟨hr, by norm_num⟩

/-- The matrix `np.random.rand(2,2)/100` drew in the run considered for
    claim C10: every entry lies in `[0, 1/100)`. -/
def randR : Mat2 := ⟨1/400, 1/200, 1/200, 9/1000⟩

/-- The default-initialized estimator (src/trade/models.py `__init__`,
    `FileNotFoundError` branch): `delta` 1e-4, `nu` 1e-3,
    `w = delta/(1-delta)·I`, `theta = 0`, `C` undefined, and `R0` the
    random draw. -/
def initKalman (R0 : Mat2) : KalmanState :=
  ⟨1/10000, 1/1000,
   ⟨(1/10000) / (1 - 1/10000), 0, 0, (1/10000) / (1 - 1/10000)⟩,
   ⟨0, 0⟩, R0, none⟩

/-- Fresh strategy, one warm-up tick configured (`bake_count = 1`),
    unit base volume. -/
def c10Start : Strategies.PairsState :=
  ⟨0, .NOT_INVESTED, 1, 1, 1, 1/100, initKalman randR⟩

/-- The state after the warm-up tick at prices (100, 100). -/
def c10Mid : Strategies.PairsState :=
  (Strategies.tick c10Start 100 100 0 true).state

/-- The estimator output of the second tick, at prices (100, 1). -/
def c10Out : KalmanOut := KalmanOLS.call c10Mid.model 100 1

/-- The second tick itself, with `sq = 1` (the entry comparison agrees with
    real arithmetic there: see the `4·Q < e²` conjunct of the theorem). -/
def c10Res : Strategies.TickResult := Strategies.tick c10Mid 100 1 1 true

/-- C10: a reachable run in which the hedge ratio returned by `update` is
    non-positive and the resulting leg size `volume_a = round(volume_b*t, 8)`
    is non-positive yet passed to the trade executor with no sign or
    validity check.  Starting from the default-initialized estimator (theta
    the zero vector, `R` a draw of `np.random.rand(2,2)/100` — the range
    conjuncts verify the draw is admissible), one warm-up tick at prices
    (100, 100) makes no executor call; the next tick at prices (100, 1)
    yields `e < 0` with `4·Q < e²` (so `e < -2·sqrt(Q)` holds in real
    arithmetic, and holds for the rational stand-in `sq = 1` used here), the
    returned hedge ratio is negative, and a LONG entry passes the
    non-positive `volume_a` to `go_long`. -/
theorem C10_nonpositive_volume_passed_to_executor :
    (0 ≤ randR.a ∧ randR.a < 1/100) ∧ (0 ≤ randR.b ∧ randR.b < 1/100) ∧
    (0 ≤ randR.c ∧ randR.c < 1/100) ∧ (0 ≤ randR.d ∧ randR.d < 1/100) ∧
    (Strategies.tick c10Start 100 100 0 true).calls = [] ∧
    c10Out.hedge ≤ 0 ∧
    c10Out.et < 0 ∧ 4 * c10Out.Qt < c10Out.et * c10Out.et ∧
    c10Out.et < -(2 * 1) ∧
    c10Res.calls =
      [.go_long 2 (pyRound8 (c10Mid.volume_b * c10Out.hedge)) c10Mid.volume_b
        100 1 (1/100)] ∧
    pyRound8 (c10Mid.volume_b * c10Out.hedge) ≤ 0 ∧
    c10Res.state.position = .LONG := by
  have hmid : c10Mid = ⟨1, .NOT_INVESTED, 1, 1, 1, 1/100,
      ⟨1/10000, 1/1000, ⟨1/9999, 0, 0, 1/9999⟩, ⟨50/51, 5090/2601⟩, randR,
       some ⟨0, 1/102000, 1/102000, -24991/26010000⟩⟩⟩ := by
    norm_num [c10Mid, Strategies.tick, c10Start, initKalman, randR,
      KalmanOLS.call, rowDot, rowMul, mulCol, outer, Vec2.add, Vec2.smul,
      Vec2.sdiv, Mat2.add, Mat2.sub, Mat2.mul, Strategies.PairsState.mk.injEq,
      KalmanState.mk.injEq, Mat2.mk.injEq, Vec2.mk.injEq]
  have ht : c10Out.hedge = -2205975755/260646147981 := by
    simp only [c10Out, hmid]
    norm_num [KalmanOLS.call, rowDot, rowMul, mulCol, outer, Vec2.add,
      Vec2.smul, Vec2.sdiv, Mat2.add, Mat2.sub, Mat2.mul, randR]
  have he : c10Out.et = -257489/2601 := by
    simp only [c10Out, hmid]
    norm_num [KalmanOLS.call, rowDot, rowMul, mulCol, outer, Vec2.add,
      Vec2.smul, Vec2.sdiv, Mat2.add, Mat2.sub, Mat2.mul, randR]
  have hq : c10Out.Qt = 28960683109/28897110000 := by
    simp only [c10Out, hmid]
    norm_num [KalmanOLS.call, rowDot, rowMul, mulCol, outer, Vec2.add,
      Vec2.smul, Vec2.sdiv, Mat2.add, Mat2.sub, Mat2.mul, randR]
  have harg : c10Mid.volume_b * c10Out.hedge ≤ 0 := by
    rw [hmid, ht]
    norm_num
  refine ⟨by norm_num [randR], by norm_num [randR], by norm_num [randR],
    by norm_num [randR], ?_, ?_, ?_, ?_, ?_, ?_, pyRound8_nonpos harg, ?_⟩
  · simp only [Strategies.tick, c10Start]
    norm_num
  · rw [ht]; norm_num
  · rw [he]; norm_num
  · rw [he, hq]; norm_num
  · rw [he]; norm_num
  · simp only [c10Res, hmid, ht]
    norm_num [Strategies.tick, KalmanOLS.call, rowDot, rowMul, mulCol, outer,
      Vec2.add, Vec2.smul, Vec2.sdiv, Mat2.add, Mat2.sub, Mat2.mul, randR]
  · simp only [c10Res, hmid]
    norm_num [Strategies.tick, KalmanOLS.call, rowDot, rowMul, mulCol, outer,
      Vec2.add, Vec2.smul, Vec2.sdiv, Mat2.add, Mat2.sub, Mat2.mul, randR]

end Traderbot
